import Mathlib

/-!
Verification of the domain-monitor reporting agents
(src/agents_js/slot603.js: the slot603 IIFE and the netpro IIFE).

The JavaScript source is shallowly embedded: the runtime environment
(page hostname and clock) is a record passed explicitly, and the HTTP
client is a function from the index of the fetch call within a cycle to
its outcome.  Console logging is modelled as an explicit event list.
-/

/-- Static per-brand configuration (the `CONFIG` object literal). -/
structure AgentConfig where
  brand : String
  apiKey : String
  apiUrl : String
  localApiUrl : String
  expired : String
  status : String
  kategori : String
  deriving Repr, DecidableEq

/-- The runtime environment observed by the agent: the page hostname
(`window.location.hostname`) and the current clock value rendered as
`new Date().toISOString()`. -/
structure Env where
  hostname : String
  nowISO : String
  deriving Repr, DecidableEq

/-- The outcome the HTTP client gives to one `fetch` call: either a
response carrying the `ok` flag, a numeric status and a body, or a
thrown transport error (the `catch` branch of `sendReport`). -/
inductive FetchOutcome where
  | response (ok : Bool) (status : Nat) (rbody : String)
  | thrown
  deriving Repr, DecidableEq

/-- Whether a fetch outcome is a response whose `ok` flag is set. -/
def fetchOk : FetchOutcome → Bool
  | .response ok _ _ => ok
  | .thrown => false

/-- The report payload built by `generateReportData`. -/
structure ReportRecord where
  brand : String
  domain : String
  expired : String
  status : String
  kategori : String
  catatan : String
  api_key : String
  deriving Repr, DecidableEq

/-- JSON string escaping as performed by `JSON.stringify` on the string
values of the record (quote, backslash and control characters). -/
def jsonEscapeChar (c : Char) : String :=
  if c = '"' then "\\\""
  else if c = '\\' then "\\\\"
  else if c = Char.ofNat 8 then "\\b"
  else if c = Char.ofNat 9 then "\\t"
  else if c = Char.ofNat 10 then "\\n"
  else if c = Char.ofNat 12 then "\\f"
  else if c = Char.ofNat 13 then "\\r"
  else if c.toNat < 32 then
    "\\u00" ++ String.mk [Nat.digitChar (c.toNat / 16), Nat.digitChar (c.toNat % 16)]
  else String.singleton c

/-- A JSON string literal for `s`. -/
def jsonString (s : String) : String :=
  "\"" ++ String.join (s.toList.map jsonEscapeChar) ++ "\""

/-- `JSON.stringify` of a ReportRecord, fields in the object-literal
order of `generateReportData`. -/
def jsonStringify (d : ReportRecord) : String :=
  "\x7b" ++ "\"brand\":" ++ jsonString d.brand
      ++ ",\"domain\":" ++ jsonString d.domain
      ++ ",\"expired\":" ++ jsonString d.expired
      ++ ",\"status\":" ++ jsonString d.status
      ++ ",\"kategori\":" ++ jsonString d.kategori
      ++ ",\"catatan\":" ++ jsonString d.catatan
      ++ ",\"api_key\":" ++ jsonString d.api_key ++ "\x7d"

/-- One outbound HTTP request as assembled inside `sendReport`. -/
structure HttpRequest where
  url : String
  method : String
  contentType : String
  userAgent : String
  body : String
  deriving Repr, DecidableEq

/-- One console log event, tagged as in the source. -/
inductive LogEvent where
  | starting (brand : String)
  | generated (brand : String) (data : ReportRecord)
  | sentOk (brand url : String)
  | sendFailedStatus (brand url : String) (status : Nat)
  | sendError (brand url : String)
  | tryingFallback (brand : String)
  | cycleSuccess (brand : String)
  | cycleFailure (brand : String)
  deriving Repr, DecidableEq

/-- `getCurrentDomain`: returns `window.location.hostname`. -/
def getCurrentDomain (env : Env) : String :=
  env.hostname

/-- `generateReportData`: builds the report record from the config and
the environment observed at call time. -/
def generateReportData (cfg : AgentConfig) (env : Env) : ReportRecord :=
  { brand := cfg.brand
    domain := getCurrentDomain env
    expired := cfg.expired
    status := cfg.status
    kategori := cfg.kategori
    catatan := "Report from JS Agent - " ++ env.nowISO
    api_key := cfg.apiKey }

/-- Result of one `sendReport` call: the boolean it returns, the HTTP
requests it performed and the log lines it emitted. -/
structure SendResult where
  success : Bool
  requests : List HttpRequest
  log : List LogEvent
  deriving Repr, DecidableEq

/-- `sendReport`: performs one POST of the JSON-serialized record with
the fixed headers, returns `true` iff `response.ok`; a non-ok status is
logged with its code, a thrown error is caught and logged, and both
yield `false`. -/
def sendReport (brand : String) (data : ReportRecord) (apiUrl : String)
    (outcome : FetchOutcome) : SendResult :=
  let req : HttpRequest :=
    { url := apiUrl
      method := "POST"
      contentType := "application/json"
      userAgent := "DomainMonitor-Agent/1.0"
      body := jsonStringify data }
  match outcome with
  | .response true _ _ =>
      { success := true, requests := [req], log := [.sentOk brand apiUrl] }
  | .response false status _ =>
      { success := false, requests := [req]
        log := [.sendFailedStatus brand apiUrl status] }
  | .thrown =>
      { success := false, requests := [req], log := [.sendError brand apiUrl] }

/-- Result of one `executeAgent` cycle: the record it built, the HTTP
requests performed in order, the log emitted, and the final value of the
local `success` variable. -/
structure CycleResult where
  record : ReportRecord
  requests : List HttpRequest
  log : List LogEvent
  success : Bool
  deriving Repr, DecidableEq

/-- `executeAgent`: builds one record, sends to `CONFIG.apiUrl`, on
failure retries once on `CONFIG.localApiUrl` with the same record, and
logs a final cycle outcome.  `http n` is the outcome the HTTP client
gives to the n-th fetch of this cycle. -/
def executeAgent (cfg : AgentConfig) (env : Env)
    (http : Nat → FetchOutcome) : CycleResult :=
  let log0 : List LogEvent :=
    [.starting cfg.brand]
  let reportData := generateReportData cfg env
  let log1 := log0 ++ [.generated cfg.brand reportData]
  let s1 := sendReport cfg.brand reportData cfg.apiUrl (http 0)
  if s1.success then
    { record := reportData
      requests := s1.requests
      log := log1 ++ s1.log ++ [.cycleSuccess cfg.brand]
      success := true }
  else
    let s2 := sendReport cfg.brand reportData cfg.localApiUrl (http 1)
    { record := reportData
      requests := s1.requests ++ s2.requests
      log := log1 ++ s1.log ++ [.tryingFallback cfg.brand] ++ s2.log ++
        (if s2.success then [.cycleSuccess cfg.brand]
         else [.cycleFailure cfg.brand])
      success := s2.success }

/-- The fixed reporting interval passed to `setInterval`:
`30 * 60 * 1000` milliseconds. -/
def REPORT_INTERVAL_MS : Nat := 30 * 60 * 1000

/-- `document.readyState` at registration time. -/
inductive ReadyState where
  | loading
  | interactive
  | complete
  deriving Repr, DecidableEq

/-- An action taken by the top-level scheduling code of the IIFE. -/
inductive ScheduleAction where
  | addDOMContentLoadedListener
  | runExecuteAgentNow
  | setIntervalExecuteAgent (periodMs : Nat)
  deriving Repr, DecidableEq

/-- The top level of the IIFE: register `executeAgent` on
`DOMContentLoaded` if the document is still loading, otherwise run it
immediately; then install the 30-minute interval timer. -/
def scheduleAgent (ready : ReadyState) : List ScheduleAction :=
  (if ready = .loading then [.addDOMContentLoadedListener]
   else [.runExecuteAgentNow])
  ++ [.setIntervalExecuteAgent (30 * 60 * 1000)]

/-- The time (ms after installation) of the k-th firing of the interval
timer; `setInterval` with a constant period, never cleared, fires at
every positive multiple of the period. -/
def intervalFiringTime (k : Nat) : Nat :=
  (k + 1) * REPORT_INTERVAL_MS

/-- The `CONFIG` literal of the slot603 IIFE. -/
def slot603CONFIG : AgentConfig :=
  { brand := "slot603"
    apiKey := "SLOT603-KEY"
    apiUrl := "https://www.dewipemikat.com/api/report"
    localApiUrl := "http://localhost:8000/api/report"
    expired := "2025-08-01"
    status := "aktif"
    kategori := "normal" }

/-- The `CONFIG` literal of the netpro IIFE. -/
def netproCONFIG : AgentConfig :=
  { brand := "netpro"
    apiKey := "NETPRO-KEY"
    apiUrl := "https://www.dewipemikat.com/api/report"
    localApiUrl := "http://localhost:8000/api/report"
    expired := "2025-08-01"
    status := "aktif"
    kategori := "normal" }

namespace Slot603

/-- `generateReportData` of the slot603 IIFE, written out against its
own `CONFIG` closure. -/
def generateReportData (env : Env) : ReportRecord :=
  { brand := slot603CONFIG.brand
    domain := getCurrentDomain env
    expired := slot603CONFIG.expired
    status := slot603CONFIG.status
    kategori := slot603CONFIG.kategori
    catatan := "Report from JS Agent - " ++ env.nowISO
    api_key := slot603CONFIG.apiKey }

/-- `sendReport` of the slot603 IIFE, written out against its own
`CONFIG` closure. -/
def sendReport (data : ReportRecord) (apiUrl : String)
    (outcome : FetchOutcome) : SendResult :=
  let req : HttpRequest :=
    { url := apiUrl
      method := "POST"
      contentType := "application/json"
      userAgent := "DomainMonitor-Agent/1.0"
      body := jsonStringify data }
  match outcome with
  | .response true _ _ =>
      { success := true, requests := [req]
        log := [.sentOk slot603CONFIG.brand apiUrl] }
  | .response false status _ =>
      { success := false, requests := [req]
        log := [.sendFailedStatus slot603CONFIG.brand apiUrl status] }
  | .thrown =>
      { success := false, requests := [req]
        log := [.sendError slot603CONFIG.brand apiUrl] }

/-- `executeAgent` of the slot603 IIFE, written out against its own
`CONFIG` closure. -/
def executeAgent (env : Env) (http : Nat → FetchOutcome) : CycleResult :=
  let log0 : List LogEvent :=
    [.starting slot603CONFIG.brand]
  let reportData := generateReportData env
  let log1 := log0 ++ [.generated slot603CONFIG.brand reportData]
  let s1 := sendReport reportData slot603CONFIG.apiUrl (http 0)
  if s1.success then
    { record := reportData
      requests := s1.requests
      log := log1 ++ s1.log ++ [.cycleSuccess slot603CONFIG.brand]
      success := true }
  else
    let s2 := sendReport reportData slot603CONFIG.localApiUrl (http 1)
    { record := reportData
      requests := s1.requests ++ s2.requests
      log := log1 ++ s1.log ++ [.tryingFallback slot603CONFIG.brand] ++ s2.log ++
        (if s2.success then [.cycleSuccess slot603CONFIG.brand]
         else [.cycleFailure slot603CONFIG.brand])
      success := s2.success }

end Slot603

namespace Netpro

/-- `generateReportData` of the netpro IIFE, written out against its
own `CONFIG` closure. -/
def generateReportData (env : Env) : ReportRecord :=
  { brand := netproCONFIG.brand
    domain := getCurrentDomain env
    expired := netproCONFIG.expired
    status := netproCONFIG.status
    kategori := netproCONFIG.kategori
    catatan := "Report from JS Agent - " ++ env.nowISO
    api_key := netproCONFIG.apiKey }

/-- `sendReport` of the netpro IIFE, written out against its own
`CONFIG` closure. -/
def sendReport (data : ReportRecord) (apiUrl : String)
    (outcome : FetchOutcome) : SendResult :=
  let req : HttpRequest :=
    { url := apiUrl
      method := "POST"
      contentType := "application/json"
      userAgent := "DomainMonitor-Agent/1.0"
      body := jsonStringify data }
  match outcome with
  | .response true _ _ =>
      { success := true, requests := [req]
        log := [.sentOk netproCONFIG.brand apiUrl] }
  | .response false status _ =>
      { success := false, requests := [req]
        log := [.sendFailedStatus netproCONFIG.brand apiUrl status] }
  | .thrown =>
      { success := false, requests := [req]
        log := [.sendError netproCONFIG.brand apiUrl] }

/-- `executeAgent` of the netpro IIFE, written out against its own
`CONFIG` closure. -/
def executeAgent (env : Env) (http : Nat → FetchOutcome) : CycleResult :=
  let log0 : List LogEvent :=
    [.starting netproCONFIG.brand]
  let reportData := generateReportData env
  let log1 := log0 ++ [.generated netproCONFIG.brand reportData]
  let s1 := sendReport reportData netproCONFIG.apiUrl (http 0)
  if s1.success then
    { record := reportData
      requests := s1.requests
      log := log1 ++ s1.log ++ [.cycleSuccess netproCONFIG.brand]
      success := true }
  else
    let s2 := sendReport reportData netproCONFIG.localApiUrl (http 1)
    { record := reportData
      requests := s1.requests ++ s2.requests
      log := log1 ++ s1.log ++ [.tryingFallback netproCONFIG.brand] ++ s2.log ++
        (if s2.success then [.cycleSuccess netproCONFIG.brand]
         else [.cycleFailure netproCONFIG.brand])
      success := s2.success }

end Netpro

/-- A concrete environment used to witness theorems with hypotheses. -/
def wEnv : Env :=
  { hostname := "example.com", nowISO := "2025-01-01T00:00:00.000Z" }

/-- A concrete HTTP behaviour where every fetch throws. -/
def wHttpFail : Nat → FetchOutcome :=
  fun _ => .thrown

/-- A concrete HTTP behaviour agreeing with `wHttpFail` on the first two
fetches but not on later ones. -/
def wHttpFail2 : Nat → FetchOutcome :=
  fun n => if n = 2 then .response true 200 "ignored" else .thrown

/-- C1: in every cycle the primary URL is posted to exactly once and
first; the fallback URL is posted to (once, afterwards) exactly when the
primary delivery did not succeed. -/
theorem executeAgent_primary_once_then_fallback
    (cfg : AgentConfig) (env : Env) (http : Nat → FetchOutcome) :
    (executeAgent cfg env http).requests.map (fun r => r.url) =
      if fetchOk (http 0) then [cfg.apiUrl]
      else [cfg.apiUrl, cfg.localApiUrl] := by
  rcases h0 : http 0 with ⟨_ | _, s, b⟩ | _ <;>
    rcases h1 : http 1 with ⟨_ | _, s1, b1⟩ | _ <;>
      simp [executeAgent, sendReport, fetchOk, h0, h1]

/-- C2: if the primary delivery fails, the fallback delivery happens
exactly once, and the two requests carry the serialization of the one
record built at the start of the cycle — same content, same `catatan`
timestamp, nothing rebuilt or regenerated. -/
theorem executeAgent_fallback_same_record
    (cfg : AgentConfig) (env : Env) (http : Nat → FetchOutcome)
    (hfail : fetchOk (http 0) = false) :
    (executeAgent cfg env http).requests =
      [{ url := cfg.apiUrl, method := "POST",
         contentType := "application/json",
         userAgent := "DomainMonitor-Agent/1.0",
         body := jsonStringify (generateReportData cfg env) },
       { url := cfg.localApiUrl, method := "POST",
         contentType := "application/json",
         userAgent := "DomainMonitor-Agent/1.0",
         body := jsonStringify (generateReportData cfg env) }] ∧
    (executeAgent cfg env http).requests.map (fun r => r.body) =
      [jsonStringify (generateReportData cfg env),
       jsonStringify (generateReportData cfg env)] := by
  rcases h0 : http 0 with ⟨_ | _, s, b⟩ | _
  · rcases h1 : http 1 with ⟨_ | _, s1, b1⟩ | _ <;>
      simp [executeAgent, sendReport, fetchOk, h0, h1]
  · rw [h0] at hfail
    exact absurd hfail (by simp [fetchOk])
  · rcases h1 : http 1 with ⟨_ | _, s1, b1⟩ | _ <;>
      simp [executeAgent, sendReport, fetchOk, h0, h1]

/-- Witness for C2 at a concrete config, environment and failing HTTP
behaviour. -/
theorem executeAgent_fallback_same_record_witness :
    (executeAgent slot603CONFIG wEnv wHttpFail).requests.map (fun r => r.body) =
      [jsonStringify (generateReportData slot603CONFIG wEnv),
       jsonStringify (generateReportData slot603CONFIG wEnv)] :=
  (executeAgent_fallback_same_record slot603CONFIG wEnv wHttpFail rfl).2

/-- C3: the cycle logs the success outcome exactly when some attempted
delivery succeeded, and the failure outcome exactly when every attempted
delivery failed. -/
theorem executeAgent_cycle_outcome
    (cfg : AgentConfig) (env : Env) (http : Nat → FetchOutcome) :
    (LogEvent.cycleSuccess cfg.brand ∈ (executeAgent cfg env http).log ↔
       (fetchOk (http 0) || fetchOk (http 1)) = true) ∧
    (LogEvent.cycleFailure cfg.brand ∈ (executeAgent cfg env http).log ↔
       (fetchOk (http 0) || fetchOk (http 1)) = false) := by
  rcases h0 : http 0 with ⟨_ | _, s, b⟩ | _ <;>
    rcases h1 : http 1 with ⟨_ | _, s1, b1⟩ | _ <;>
      simp [executeAgent, sendReport, fetchOk, h0, h1]

/-- C4: every failure of the HTTP client — a non-ok response or a thrown
transport error — is absorbed inside `sendReport` into the boolean
`false`; `sendReport`'s boolean equals the `ok` classification, and the
final cycle outcome of `executeAgent` is the boolean disjunction of the
attempts, always defined. -/
theorem sendReport_absorbs_failures :
    (∀ brand data url status rbody,
       (sendReport brand data url (.response false status rbody)).success = false) ∧
    (∀ brand data url,
       (sendReport brand data url .thrown).success = false) ∧
    (∀ brand data url outcome,
       (sendReport brand data url outcome).success = fetchOk outcome) ∧
    (∀ cfg env http,
       (executeAgent cfg env http).success =
         (fetchOk (http 0) || fetchOk (http 1))) := by
  refine ⟨fun brand data url status rbody => rfl,
          fun brand data url => rfl,
          fun brand data url outcome => ?_,
          fun cfg env http => ?_⟩
  · rcases outcome with ⟨_ | _, s, b⟩ | _ <;> rfl
  · rcases h0 : http 0 with ⟨_ | _, s, b⟩ | _ <;>
      rcases h1 : http 1 with ⟨_ | _, s1, b1⟩ | _ <;>
        simp [executeAgent, sendReport, fetchOk, h0, h1]

/-- C5: the record built by `generateReportData` copies `brand`,
`expired`, `status`, `kategori` and `apiKey` from the config verbatim
into `brand`, `expired`, `status`, `kategori` and `api_key`. -/
theorem generateReportData_copies_config (cfg : AgentConfig) (env : Env) :
    (generateReportData cfg env).brand = cfg.brand ∧
    (generateReportData cfg env).expired = cfg.expired ∧
    (generateReportData cfg env).status = cfg.status ∧
    (generateReportData cfg env).kategori = cfg.kategori ∧
    (generateReportData cfg env).api_key = cfg.apiKey :=
  ⟨rfl, rfl, rfl, rfl, rfl⟩

/-- C6: `generateReportData` sets `domain` to the hostname the
environment reports at the call, and `catatan` to the fixed
human-readable marker followed by the ISO timestamp of the call time;
as a pure function of `(cfg, env)` it has no side effects. -/
theorem generateReportData_env_fields (cfg : AgentConfig) (env : Env) :
    (generateReportData cfg env).domain = env.hostname ∧
    (generateReportData cfg env).catatan =
      "Report from JS Agent - " ++ env.nowISO :=
  ⟨rfl, rfl⟩

/-- C7: each `sendReport` call performs exactly one POST with the JSON
content type, the fixed user agent and the JSON-serialized record as
body; its boolean is exactly the client's `ok` flag, unaffected by the
status code or the response body, with no retry. -/
theorem sendReport_single_post
    (brand : String) (data : ReportRecord) (url : String)
    (outcome : FetchOutcome) :
    (sendReport brand data url outcome).requests =
      [{ url := url, method := "POST",
         contentType := "application/json",
         userAgent := "DomainMonitor-Agent/1.0",
         body := jsonStringify data }] ∧
    (sendReport brand data url outcome).success = fetchOk outcome ∧
    (∀ ok s₁ s₂ b₁ b₂,
       (sendReport brand data url (.response ok s₁ b₁)).success =
         (sendReport brand data url (.response ok s₂ b₂)).success) := by
  refine ⟨?_, ?_, ?_⟩
  · rcases outcome with ⟨_ | _, s, b⟩ | _ <;> rfl
  · rcases outcome with ⟨_ | _, s, b⟩ | _ <;> rfl
  · intro ok s₁ s₂ b₁ b₂
    cases ok <;> rfl

/-- C8: every top-level registration runs `executeAgent` once at load —
via a `DOMContentLoaded` listener when the document is still loading,
immediately otherwise — and installs a single never-cleared interval
timer with the compiled-in period `30 * 60 * 1000` ms, whose consecutive
firings are always exactly one period apart (no jitter, no backoff, no
cap). -/
theorem scheduleAgent_interval_constant :
    scheduleAgent .loading =
      [.addDOMContentLoadedListener,
       .setIntervalExecuteAgent REPORT_INTERVAL_MS] ∧
    scheduleAgent .interactive =
      [.runExecuteAgentNow, .setIntervalExecuteAgent REPORT_INTERVAL_MS] ∧
    scheduleAgent .complete =
      [.runExecuteAgentNow, .setIntervalExecuteAgent REPORT_INTERVAL_MS] ∧
    REPORT_INTERVAL_MS = 30 * 60 * 1000 ∧
    REPORT_INTERVAL_MS = 1800000 ∧
    (∀ k, intervalFiringTime (k + 1) =
      intervalFiringTime k + REPORT_INTERVAL_MS) := by
  refine ⟨rfl, rfl, rfl, rfl, rfl, fun k => ?_⟩
  simp [intervalFiringTime, Nat.succ_mul]

/-- C9: the slot603 and netpro instances are the one parametrized agent
applied to their respective `CONFIG` records: their `generateReportData`,
`sendReport` and `executeAgent` coincide with the generic functions at
`slot603CONFIG` and `netproCONFIG` on every environment and HTTP-client
behaviour, so the two instances differ only in configuration values. -/
theorem brand_instances_identical_up_to_config :
    (∀ env http, Slot603.executeAgent env http =
       executeAgent slot603CONFIG env http) ∧
    (∀ env http, Netpro.executeAgent env http =
       executeAgent netproCONFIG env http) ∧
    (∀ env, Slot603.generateReportData env =
       generateReportData slot603CONFIG env) ∧
    (∀ env, Netpro.generateReportData env =
       generateReportData netproCONFIG env) ∧
    (∀ data url outcome, Slot603.sendReport data url outcome =
       sendReport slot603CONFIG.brand data url outcome) ∧
    (∀ data url outcome, Netpro.sendReport data url outcome =
       sendReport netproCONFIG.brand data url outcome) := by
  refine ⟨fun env http => rfl, fun env http => rfl, fun env => rfl,
          fun env => rfl, fun data url outcome => ?_,
          fun data url outcome => ?_⟩ <;>
    rcases outcome with ⟨_ | _, s, b⟩ | _ <;> rfl

/-- C10: `executeAgent` is deterministic in its observable inputs — two
runs with the same config, the same reported hostname, the same clock
value and the same outcomes for the (at most two) fetches of the cycle
produce the same record, the same request sequence, the same log and the
same final outcome. -/
theorem executeAgent_deterministic
    (cfg : AgentConfig) (env₁ env₂ : Env) (http₁ http₂ : Nat → FetchOutcome)
    (hhost : env₁.hostname = env₂.hostname)
    (hclock : env₁.nowISO = env₂.nowISO)
    (h0 : http₁ 0 = http₂ 0) (h1 : http₁ 1 = http₂ 1) :
    executeAgent cfg env₁ http₁ = executeAgent cfg env₂ http₂ := by
  have henv : env₁ = env₂ := by
    cases env₁; cases env₂; simp_all
  subst henv
  unfold executeAgent
  rw [h0, h1]

/-- Witness for C10: two syntactically different HTTP behaviours that
agree on the first two fetches yield equal cycle results. -/
theorem executeAgent_deterministic_witness :
    executeAgent slot603CONFIG wEnv wHttpFail =
      executeAgent slot603CONFIG wEnv wHttpFail2 :=
  executeAgent_deterministic slot603CONFIG wEnv wEnv wHttpFail wHttpFail2
    rfl rfl rfl rfl
